import Mathlib

/-!
Verification of the subtitle-formatting and proxy-rotation core of a small
caption-download web backend (`app.py`).

The embedding follows the source:

* `PROXIES_URLS_CLEANED` — the proxy pool built from a comma-separated
  configuration string (`os.getenv('PROXIES_LIST','').split(',')` filtered and
  stripped).
* `select_next` — the inline round-robin selection performed by the route
  handlers (`fetch_subtitles`, `download_subtitle`): when the pool is
  non-empty, read `pool[cursor % len(pool)]` and increment the cursor;
  otherwise leave the cursor alone and select no proxy.
* `format_timestamp` — the nested helper of `download_subtitle` turning a
  millisecond count into `HH:MM:SS,mmm`.
* `format_txt` / `format_srt` — the two formatting loops of
  `download_subtitle`, accumulating into `subtitle_content` with `+=`.
* `format` — the mode dispatch (`if file_format == 'txt' ... elif 'srt' ...
  else` error), abstracted as a total function into `Except`.
* `download_subtitle` — the route's pure skeleton: parameter presence check,
  proxy selection, transcript fetch (modelled as an input), formatting,
  response assembly (content, MIME type, filename) or a 400 error.

Python integers are `ℤ`/`ℕ`; the fractional second offsets are `ℚ`;
`int(x)` is truncation toward zero (`ratTrunc`); Python `//` and `%` on
integers are floor division and the matching modulus (`Int.fdiv`,
`Int.fmod`); Python strings are Lean `String` (a packed `List Char`).
-/

/-- One caption cue as produced by the transcript fetch: the dictionary
`{'text': ..., 'start': ..., 'duration': ...}`. -/
structure Cue where
  text : String
  start : ℚ
  duration : ℚ
deriving DecidableEq

/-- Python `int(q)` on a rational: truncation toward zero
(`Int.tdiv` is T-division and `q.den` is positive). -/
def ratTrunc (q : ℚ) : ℤ :=
  Int.tdiv q.num (q.den : ℤ)

/-- Zero-padding of a natural number to width `w`
(no truncation when the decimal form is already wider). -/
def padNatZero (w : ℕ) (n : ℕ) : String :=
  String.mk (List.replicate (w - (toString n).length) '0') ++ toString n

/-- Python `f"{n:0Nd}"` on an integer: sign first, zeros after the sign. -/
def padIntZero (w : ℕ) (n : ℤ) : String :=
  if n < 0 then "-" ++ padNatZero (w - 1) n.natAbs else padNatZero w n.natAbs

/-- The nested `format_timestamp(ms)` helper of `download_subtitle`:
`//` and `%` of Python are `Int.fdiv` and `Int.fmod`. -/
def format_timestamp (ms : ℤ) : String :=
  let hours := Int.fdiv ms 3600000
  let ms1 := Int.fmod ms 3600000
  let minutes := Int.fdiv ms1 60000
  let ms2 := Int.fmod ms1 60000
  let seconds := Int.fdiv ms2 1000
  let milliseconds := Int.fmod ms2 1000
  padIntZero 2 hours ++ ":" ++ padIntZero 2 minutes ++ ":" ++
    padIntZero 2 seconds ++ "," ++ padIntZero 3 milliseconds

/-- The composite used at both call sites of `format_timestamp`:
seconds to rendered timestamp, `format_timestamp(int(s * 1000))`. -/
def render_timestamp (s : ℚ) : String :=
  format_timestamp (ratTrunc (s * 1000))

/-- The `"txt"` branch of `download_subtitle`:
`for entry in transcript: subtitle_content += f"{entry['text']}\n"`. -/
def format_txt (transcript : List Cue) : String :=
  transcript.foldl (fun acc entry => acc ++ (entry.text ++ "\n")) ""

/-- The `"srt"` branch of `download_subtitle`: `for i, entry in
enumerate(transcript)` appends the sequence number `i+1`, the
`start --> end` timestamp line and the text followed by a blank line, with
`start_ms = int(entry['start'] * 1000)` and
`end_ms = int((entry['start'] + entry['duration']) * 1000)`. -/
def format_srt (transcript : List Cue) : String :=
  transcript.enum.foldl (fun acc ie =>
    let start_ms := ratTrunc (ie.2.start * 1000)
    let end_ms := ratTrunc ((ie.2.start + ie.2.duration) * 1000)
    acc ++ (toString (ie.1 + 1) ++ "\n")
        ++ (format_timestamp start_ms ++ " --> " ++ format_timestamp end_ms ++ "\n")
        ++ (ie.2.text ++ "\n\n")) ""

/-- The formatter's only error condition. -/
inductive FormatError where
  | UnsupportedFormatError
deriving DecidableEq

/-- The mode dispatch of `download_subtitle`
(`if file_format == 'txt': ... elif file_format == 'srt': ... else: 400`). -/
def format (cues : List Cue) (mode : String) : Except FormatError String :=
  if mode = "txt" then Except.ok (format_txt cues)
  else if mode = "srt" then Except.ok (format_srt cues)
  else Except.error FormatError.UnsupportedFormatError

/-! ## Proxy pool construction and round-robin selection -/

/-- Python `str.split(sep)` for a one-character separator:
`"".split(',') == ['']`, separators are not grouped. -/
def splitOnChar (sep : Char) : List Char → List (List Char)
  | [] => [[]]
  | c :: rest =>
    if c = sep then [] :: splitOnChar sep rest
    else
      match splitOnChar sep rest with
      | [] => [[c]]
      | g :: gs => (c :: g) :: gs

/-- The ASCII whitespace characters removed by Python `str.strip()`. -/
def pyIsSpace (c : Char) : Bool :=
  c = ' ' || c = '\t' || c = '\n' || c = '\r' || c = '\x0b' || c = '\x0c'

/-- Python `str.strip()`: drop leading and trailing whitespace. -/
def pyStrip (l : List Char) : List Char :=
  ((l.dropWhile pyIsSpace).reverse.dropWhile pyIsSpace).reverse

/-- `PROXIES_LIST_RAW = os.getenv('PROXIES_LIST', '').split(',')`,
with the configuration string as input. -/
def PROXIES_LIST_RAW (config : List Char) : List (List Char) :=
  splitOnChar ',' config

/-- `PROXIES_URLS_CLEANED = [p.strip() for p in PROXIES_LIST_RAW if p.strip()]`:
keep `p.strip()` exactly when it is non-empty (Python truthiness). -/
def PROXIES_URLS_CLEANED (config : List Char) : List (List Char) :=
  (PROXIES_LIST_RAW config).filterMap
    (fun p => if pyStrip p = [] then none else some (pyStrip p))

/-- The inline round-robin selection of the route handlers:
`selected_proxy = None; if pool: selected_proxy = pool[idx % len(pool)];
idx += 1`.  Returns the selected proxy (if any) and the new cursor; the
cursor is untouched when the pool is empty. -/
def select_next {α : Type} (pool : List α) (cursor : ℕ) : Option α × ℕ :=
  if h : 0 < pool.length then
    (some (pool.get ⟨cursor % pool.length, Nat.mod_lt _ h⟩), cursor + 1)
  else (none, cursor)

/-- `n` successive single-threaded selections, collecting the results. -/
def runSelections {α : Type} (pool : List α) (cursor : ℕ) : ℕ → List (Option α)
  | 0 => []
  | n + 1 =>
    let r := select_next pool cursor
    r.1 :: runSelections pool r.2 n

/-! ## The `download_subtitle` route skeleton -/

/-- What the route hands back: a file response (content, MIME type, suggested
filename) or a JSON error with its HTTP status code. -/
inductive DlResponse where
  | file (content mimetype filename : String)
  | jsonError (message : String) (status : ℕ)
deriving DecidableEq

/-- The observable outcome of one `download_subtitle` call: the response, the
proxy cursor after the call, and whether the transcript fetch was reached. -/
structure DlOutcome where
  response : DlResponse
  cursorAfter : ℕ
  fetchAttempted : Bool
deriving DecidableEq

/-- Pure skeleton of the `/api/download_subtitle` handler.  `videoId` and
`lang` are the request parameters (an absent parameter is modelled as `""`,
which Python's `not x` treats the same as `None`); `formatParam` is
`request.args.get('format', 'srt')`; `transcript` stands for the value
returned by the external `get_transcript` call, which the handler performs —
after proxy selection — before looking at the format. -/
def download_subtitle (pool : List String) (cursor : ℕ)
    (videoId lang : String) (formatParam : Option String)
    (transcript : List Cue) : DlOutcome :=
  let file_format := formatParam.getD "srt"
  if videoId = "" ∨ lang = "" then
    ⟨DlResponse.jsonError "Video ID and language are required" 400, cursor, false⟩
  else
    let sel := select_next pool cursor
    let cursorAfter := sel.2
    if file_format = "txt" then
      ⟨DlResponse.file (format_txt transcript) "text/plain"
        (videoId ++ "_" ++ lang ++ ".txt"), cursorAfter, true⟩
    else if file_format = "srt" then
      ⟨DlResponse.file (format_srt transcript) "application/x-subrip"
        (videoId ++ "_" ++ lang ++ ".srt"), cursorAfter, true⟩
    else
      ⟨DlResponse.jsonError
        "Unsupported format. Only 'txt' and 'srt' are supported." 400,
        cursorAfter, true⟩

/-! ## Specification-side renderings, for comparison with the code -/

/-- The spec's four-part SRT block for the cue at zero-based position `i`:
the sequence number `i+1`, the `start --> end` timestamp line, the cue's
text line, and a blank separator line. -/
def srtBlock (i : ℕ) (c : Cue) : String :=
  toString (i + 1) ++ "\n" ++
    render_timestamp c.start ++ " --> " ++
      render_timestamp (c.start + c.duration) ++ "\n" ++
    c.text ++ "\n" ++ "\n"

/-- Concatenation of the spec's SRT blocks, numbering from position `i`. -/
def srtBlocksFrom (i : ℕ) : List Cue → String
  | [] => ""
  | c :: rest => srtBlock i c ++ srtBlocksFrom (i + 1) rest

/-- The spec's `"txt"` output: each cue's text followed by one newline,
concatenated in input order. -/
def txtSpec : List Cue → String
  | [] => ""
  | c :: rest => c.text ++ "\n" ++ txtSpec rest

/-- The spec's timestamp rule, stated over naturals: truncated milliseconds
decomposed by `div`/`mod` into hours, minutes, seconds and milliseconds,
each zero-padded. -/
def renderSpec (s : ℚ) : String :=
  let ms := (ratTrunc (s * 1000)).toNat
  padNatZero 2 (ms / 3600000) ++ ":" ++
    padNatZero 2 (ms % 3600000 / 60000) ++ ":" ++
    padNatZero 2 (ms % 3600000 % 60000 / 1000) ++ "," ++
    padNatZero 3 (ms % 3600000 % 60000 % 1000)

/-- The lines of a string, Python `str.splitlines` style: the trailing
newline does not open an extra empty line, and the empty string has no
lines. -/
def splitlines : List Char → List (List Char)
  | [] => []
  | c :: rest =>
    if c = '\n' then [] :: splitlines rest
    else
      match splitlines rest with
      | [] => [[c]]
      | g :: gs => (c :: g) :: gs

/-- Number of output lines, ignoring the trailing newline. -/
def lineCount (s : String) : ℕ :=
  (splitlines s.data).length

/-! ## Helper lemmas -/

lemma two_newlines : ("\n\n" : String) = "\n" ++ "\n" := rfl

lemma foldl_txt_eq (l : List Cue) :
    ∀ a : String,
      l.foldl (fun acc entry => acc ++ (entry.text ++ "\n")) a = a ++ txtSpec l := by
  induction l with
  | nil => intro a; simp [txtSpec]
  | cons c r ih => intro a; simp [txtSpec, ih, String.append_assoc]

lemma format_txt_eq_txtSpec (cues : List Cue) : format_txt cues = txtSpec cues := by
  have h := foldl_txt_eq cues ""
  simpa [format_txt] using h

lemma foldl_srt_eq (l : List Cue) :
    ∀ (i : ℕ) (a : String),
      (List.enumFrom i l).foldl (fun acc ie =>
        let start_ms := ratTrunc (ie.2.start * 1000)
        let end_ms := ratTrunc ((ie.2.start + ie.2.duration) * 1000)
        acc ++ (toString (ie.1 + 1) ++ "\n")
            ++ (format_timestamp start_ms ++ " --> " ++ format_timestamp end_ms ++ "\n")
            ++ (ie.2.text ++ "\n\n")) a = a ++ srtBlocksFrom i l := by
  induction l with
  | nil => intro i a; simp [srtBlocksFrom]
  | cons c r ih =>
    intro i a
    simp only [List.enumFrom, List.foldl_cons, ih]
    simp [srtBlocksFrom, srtBlock, render_timestamp, two_newlines, String.append_assoc]

lemma format_srt_eq_srtBlocks (cues : List Cue) :
    format_srt cues = srtBlocksFrom 0 cues := by
  have h := foldl_srt_eq cues 0 ""
  simpa [format_srt, List.enum] using h

lemma padIntZero_natCast (w n : ℕ) : padIntZero w (n : ℤ) = padNatZero w n := by
  simp [padIntZero, Int.natAbs_ofNat]

lemma format_timestamp_natCast (n : ℕ) :
    format_timestamp (n : ℤ) =
      padNatZero 2 (n / 3600000) ++ ":" ++
        padNatZero 2 (n % 3600000 / 60000) ++ ":" ++
        padNatZero 2 (n % 3600000 % 60000 / 1000) ++ "," ++
        padNatZero 3 (n % 3600000 % 60000 % 1000) := by
  have h1 : (3600000 : ℤ) = ((3600000 : ℕ) : ℤ) := rfl
  have h2 : (60000 : ℤ) = ((60000 : ℕ) : ℤ) := rfl
  have h3 : (1000 : ℤ) = ((1000 : ℕ) : ℤ) := rfl
  simp only [format_timestamp, h1, h2, h3, ← Int.ofNat_fdiv, ← Int.ofNat_fmod,
    padIntZero_natCast]

lemma ratTrunc_nonneg {q : ℚ} (h : 0 ≤ q) : 0 ≤ ratTrunc q := by
  apply Int.tdiv_nonneg (Rat.num_nonneg.mpr h)
  exact Int.ofNat_nonneg q.den

lemma render_eq_renderSpec {s : ℚ} (hs : 0 ≤ s) :
    render_timestamp s = renderSpec s := by
  have hq : (0 : ℚ) ≤ s * 1000 := by positivity
  have hms : 0 ≤ ratTrunc (s * 1000) := ratTrunc_nonneg hq
  have hcast : ((ratTrunc (s * 1000)).toNat : ℤ) = ratTrunc (s * 1000) :=
    Int.toNat_of_nonneg hms
  rw [render_timestamp, renderSpec, ← hcast, format_timestamp_natCast,
    Int.toNat_natCast]

lemma newline_data : ("\n" : String).data = ['\n'] := rfl

lemma splitlines_append_newline (rest : List Char) :
    ∀ t : List Char, '\n' ∉ t →
      splitlines (t ++ '\n' :: rest) = t :: splitlines rest := by
  intro t
  induction t with
  | nil => intro _; simp [splitlines]
  | cons c t ih =>
    intro h
    have hc : ¬(c = '\n') := fun e => h (e ▸ List.mem_cons_self c t)
    have ht : '\n' ∉ t := fun m => h (List.mem_cons_of_mem _ m)
    simp [splitlines, hc, ih ht]

lemma splitlines_txtSpec :
    ∀ cues : List Cue, (∀ c ∈ cues, '\n' ∉ c.text.data) →
      splitlines (txtSpec cues).data = cues.map (fun c => c.text.data) := by
  intro cues
  induction cues with
  | nil => intro _; rfl
  | cons c r ih =>
    intro h
    have hc : '\n' ∉ c.text.data := h c (List.mem_cons_self c r)
    have hr : ∀ x ∈ r, '\n' ∉ x.text.data := fun x hx => h x (List.mem_cons_of_mem _ hx)
    simp only [txtSpec, String.data_append, newline_data, List.append_assoc,
      List.singleton_append, List.map_cons]
    rw [splitlines_append_newline _ _ hc, ih hr]

lemma lineCount_txtSpec (cues : List Cue) (h : ∀ c ∈ cues, '\n' ∉ c.text.data) :
    lineCount (txtSpec cues) = cues.length := by
  rw [lineCount, splitlines_txtSpec cues h, List.length_map]

lemma format_srt_dispatch (cues : List Cue) :
    format cues "srt" = Except.ok (format_srt cues) := by
  have h : ("srt" : String) ≠ "txt" := by decide
  simp [format, h]

lemma format_txt_dispatch (cues : List Cue) :
    format cues "txt" = Except.ok (format_txt cues) := by
  simp [format]

/-! ## Claim theorems -/

/-- C1: for every cue sequence, `format(cues, "srt")` emits, for the cue at
zero-based position `i` in input order, exactly the four parts: the sequence
number line `i+1` (contiguous `1..N` regardless of the cues' timing values),
the line `<start> --> <end>` with `start` the cue's start offset and `end`
its start plus duration, each rendered by the timestamp rule, the cue's text
line, and a blank separator line; the empty sequence yields the empty
string. -/
theorem srt_format_emits_numbered_blocks :
    (∀ cues : List Cue, format cues "srt" = Except.ok (srtBlocksFrom 0 cues)) ∧
    format ([] : List Cue) "srt" = Except.ok "" := by
  constructor
  · intro cues
    rw [format_srt_dispatch, format_srt_eq_srtBlocks]
  · rfl

/-- C2: the timestamp renderer truncates `s * 1000` toward zero and
decomposes the millisecond count by `div`/`mod` into `HH:MM:SS,mmm` with
2-digit zero-padded hours, minutes and seconds and 3-digit zero-padded
milliseconds, hours unbounded; with the three round-trip examples of the
spec. -/
theorem timestamp_rule_holds :
    (∀ s : ℚ, 0 ≤ s → render_timestamp s = renderSpec s) ∧
    render_timestamp (0.0 : ℚ) = "00:00:00,000" ∧
    render_timestamp (3661.234 : ℚ) = "01:01:01,234" ∧
    render_timestamp (3600.0 : ℚ) = "01:00:00,000" := by
  refine ⟨fun s hs => render_eq_renderSpec hs, ?_, ?_, ?_⟩
  · have h : (0.0 : ℚ) * 1000 = 0 := by norm_num
    rw [render_timestamp, h]; decide
  · have h : (3661.234 : ℚ) * 1000 = 3661234 := by norm_num
    rw [render_timestamp, h]; decide
  · have h : (3600.0 : ℚ) * 1000 = 3600000 := by norm_num
    rw [render_timestamp, h]; decide

/-- Witness for C2 at the concrete input `5` seconds. -/
theorem timestamp_rule_holds_witness :
    render_timestamp (5 : ℚ) = renderSpec (5 : ℚ) :=
  timestamp_rule_holds.1 5 (by norm_num)

/-- C3 counterexample: the line-count conjunct of the claim fails on the
code — a single cue whose text itself contains a newline produces two output
lines, not one. -/
theorem txt_lineCount_counterexample :
    lineCount (format_txt [{ text := "a\nb", start := 0, duration := 0 }]) ≠
      ([{ text := "a\nb", start := 0, duration := 0 }] : List Cue).length := by
  decide

/-- C3 (amended): `format(cues, "txt")` is the concatenation, in input
order, of each cue's text followed by one newline, with no timestamps and no
sequence numbers; the empty sequence yields the empty string; and when no
cue's text itself contains a newline character, the number of output lines
(ignoring the trailing newline) equals the number of cues. -/
theorem txt_format_concatenates_texts :
    (∀ cues : List Cue, format cues "txt" = Except.ok (txtSpec cues)) ∧
    format ([] : List Cue) "txt" = Except.ok "" ∧
    (∀ cues : List Cue, (∀ c ∈ cues, '\n' ∉ c.text.data) →
      lineCount (txtSpec cues) = cues.length) := by
  refine ⟨fun cues => ?_, rfl, fun cues h => lineCount_txtSpec cues h⟩
  rw [format_txt_dispatch, format_txt_eq_txtSpec]

/-- Witness for C3 (amended) on a concrete two-cue transcript. -/
theorem txt_format_concatenates_texts_witness :
    lineCount (txtSpec [{ text := "Hi", start := 0, duration := 3 / 2 },
      { text := "There", start := 3 / 2, duration := 2 }]) = 2 :=
  txt_format_concatenates_texts.2.2 _ (by decide)

/-- C4: `format` fails with `UnsupportedFormatError` exactly when the mode
is neither `"txt"` nor `"srt"` (for example `"xml"`), the route surfaces
this as an HTTP 400 bad-request response, and both supported modes always
succeed (no other error originates inside the formatter). -/
theorem format_unsupported_exactly_otherwise :
    (∀ (cues : List Cue) (mode : String),
      format cues mode = Except.error FormatError.UnsupportedFormatError ↔
        mode ≠ "txt" ∧ mode ≠ "srt") ∧
    (∀ cues : List Cue,
      format cues "xml" = Except.error FormatError.UnsupportedFormatError) ∧
    (∀ (cues : List Cue) (mode : String), mode = "txt" ∨ mode = "srt" →
      ∃ s, format cues mode = Except.ok s) ∧
    (∀ (pool : List String) (cursor : ℕ) (videoId lang fmt : String)
        (transcript : List Cue),
      videoId ≠ "" → lang ≠ "" → fmt ≠ "txt" → fmt ≠ "srt" →
      (download_subtitle pool cursor videoId lang (some fmt)
          transcript).response =
        DlResponse.jsonError
          "Unsupported format. Only 'txt' and 'srt' are supported." 400) := by
  refine ⟨fun cues mode => ?_, fun cues => rfl, fun cues mode h => ?_, ?_⟩
  · by_cases h1 : mode = "txt"
    · simp [format, h1]
    · by_cases h2 : mode = "srt"
      · simp [format, h1, h2]
      · simp [format, h1, h2]
  · rcases h with h | h <;> subst h
    · exact ⟨format_txt cues, format_txt_dispatch cues⟩
    · exact ⟨format_srt cues, format_srt_dispatch cues⟩
  · intro pool cursor videoId lang fmt transcript hv hl h1 h2
    simp [download_subtitle, hv, hl, h1, h2, Option.getD]

/-- Witness for C4 at the concrete mode `"xml"` and a concrete request. -/
theorem format_unsupported_exactly_otherwise_witness :
    (format ([] : List Cue) "xml" =
        Except.error FormatError.UnsupportedFormatError ↔
      ("xml" : String) ≠ "txt" ∧ ("xml" : String) ≠ "srt") ∧
    (download_subtitle [] 0 "v" "en" (some "xml") []).response =
      DlResponse.jsonError
        "Unsupported format. Only 'txt' and 'srt' are supported." 400 :=
  ⟨format_unsupported_exactly_otherwise.1 [] "xml",
    format_unsupported_exactly_otherwise.2.2.2 [] 0 "v" "en" "xml" []
      (by decide) (by decide) (by decide) (by decide)⟩

/-- C5: for every non-empty pool and every cursor value `c`, one
single-threaded selection returns `pool[c mod len(pool)]` and sets the
cursor to `c + 1` (wrap happens only via the modulo at read time); on pool
`["A","B","C"]` starting from cursor `0`, five sequential calls yield
`A, B, C, A, B` in that order. -/
theorem select_next_round_robin :
    (∀ (pool : List String) (cursor : ℕ), pool ≠ [] →
      (select_next pool cursor).1 = pool[cursor % pool.length]? ∧
      (select_next pool cursor).2 = cursor + 1) ∧
    runSelections ["A", "B", "C"] 0 5 =
      [some "A", some "B", some "C", some "A", some "B"] := by
  refine ⟨fun pool cursor h => ?_, by decide⟩
  have hp : 0 < pool.length := List.length_pos.mpr h
  have hm : cursor % pool.length < pool.length := Nat.mod_lt _ hp
  simp [select_next, hp, List.getElem?_eq_getElem hm]

/-- Witness for C5 on the concrete pool `["A", "B"]` at cursor `3`. -/
theorem select_next_round_robin_witness :
    (select_next ["A", "B"] 3).1 = ["A", "B"][3 % 2]? ∧
    (select_next ["A", "B"] 3).2 = 3 + 1 :=
  select_next_round_robin.1 ["A", "B"] 3 (by decide)

/-- C6: with an empty pool every selection returns no proxy, and selection
never fails in any state — it always returns either an element of the pool
or nothing. -/
theorem select_next_never_fails :
    (∀ cursor : ℕ, (select_next ([] : List String) cursor).1 = none) ∧
    (∀ (pool : List String) (cursor : ℕ) (p : String),
      (select_next pool cursor).1 = some p → p ∈ pool) := by
  refine ⟨fun cursor => rfl, fun pool cursor p h => ?_⟩
  rw [select_next] at h
  by_cases hp : 0 < pool.length
  · rw [dif_pos hp] at h
    simp only [Option.some.injEq] at h
    exact h ▸ pool.get_mem _ _
  · rw [dif_neg hp] at h
    exact absurd h (by simp)

/-- Witness for C6 on the concrete pool `["A"]` at cursor `0`. -/
theorem select_next_never_fails_witness : "A" ∈ ["A"] :=
  select_next_never_fails.2 ["A"] 0 "A" (by decide)

/-- C7 counterexample: with the empty pool the cursor is not mutated — the
increment sits inside the `if PROXIES_URLS_CLEANED:` block, so a selection
against an empty pool leaves the cursor unchanged instead of advancing it. -/
theorem select_next_cursor_counterexample :
    ¬((select_next ([] : List String) 0).2 = 0 + 1) := by decide

/-- C7 (amended): the cursor advances by one on every selection against a
non-empty pool, and is left unchanged when the pool is empty. -/
theorem select_next_cursor_increment :
    ∀ (pool : List String) (cursor : ℕ),
      (select_next pool cursor).2 =
        if pool = [] then cursor else cursor + 1 := by
  intro pool cursor
  by_cases h : pool = []
  · subst h; simp [select_next]
  · have hp : 0 < pool.length := List.length_pos.mpr h
    simp [select_next, hp, h]

lemma head?_dropWhile (p : Char → Bool) :
    ∀ (l : List Char) (c : Char), ((l.dropWhile p).head? = some c) → p c = false := by
  intro l
  induction l with
  | nil => intro c h; simp [List.dropWhile] at h
  | cons a t ih =>
    intro c h
    by_cases hp : p a
    · rw [List.dropWhile_cons, if_pos hp] at h
      exact ih c h
    · rw [List.dropWhile_cons, if_neg hp] at h
      simp only [List.head?_cons, Option.some.injEq] at h
      subst h
      simpa using hp

lemma prefix_head? {l₁ l₂ : List Char} (h : l₁ <+: l₂) (hne : l₁ ≠ []) :
    l₁.head? = l₂.head? := by
  obtain ⟨t, rfl⟩ := h
  cases l₁ with
  | nil => exact absurd rfl hne
  | cons a t' => rfl

lemma pyStrip_head {l : List Char} {c : Char}
    (h : (pyStrip l).head? = some c) : pyIsSpace c = false := by
  rw [pyStrip] at h
  have hs : (l.dropWhile pyIsSpace).reverse.dropWhile pyIsSpace <:+
      (l.dropWhile pyIsSpace).reverse := List.dropWhile_suffix _
  have hp := List.reverse_prefix.mpr hs
  rw [List.reverse_reverse] at hp
  have hne : ((l.dropWhile pyIsSpace).reverse.dropWhile pyIsSpace).reverse ≠ [] := by
    intro e; rw [e] at h; exact Option.noConfusion h
  rw [prefix_head? hp hne] at h
  exact head?_dropWhile pyIsSpace l c h

lemma pyStrip_getLast {l : List Char} {c : Char}
    (h : (pyStrip l).getLast? = some c) : pyIsSpace c = false := by
  rw [pyStrip, List.getLast?_reverse] at h
  exact head?_dropWhile pyIsSpace _ c h

lemma filterMap_strip_sublist :
    ∀ l : List (List Char),
      List.Sublist
        (l.filterMap (fun p => if pyStrip p = [] then none else some (pyStrip p)))
        (l.map pyStrip) := by
  intro l
  induction l with
  | nil => simp
  | cons a t ih =>
    by_cases h : pyStrip a = []
    · rw [List.filterMap_cons, List.map_cons, if_pos h]
      exact ih.cons _
    · rw [List.filterMap_cons, List.map_cons, if_neg h]
      exact ih.cons₂ _

/-- C8: the proxy pool splits the configuration string on commas, trims
each entry, and drops every entry that is empty after trimming: the empty
configuration yields the empty pool, the retained entries keep the order of
the comma-split pieces, every retained endpoint is the trimmed form of one
of the pieces, is non-empty and carries no leading or trailing
whitespace. -/
theorem proxy_pool_parsing :
    PROXIES_URLS_CLEANED [] = [] ∧
    (∀ config : List Char,
      List.Sublist (PROXIES_URLS_CLEANED config)
        ((PROXIES_LIST_RAW config).map pyStrip)) ∧
    (∀ (config : List Char) (e : List Char), e ∈ PROXIES_URLS_CLEANED config →
      e ≠ [] ∧
      (∀ c, e.head? = some c → pyIsSpace c = false) ∧
      (∀ c, e.getLast? = some c → pyIsSpace c = false) ∧
      ∃ p ∈ PROXIES_LIST_RAW config, e = pyStrip p) := by
  refine ⟨rfl, fun config => filterMap_strip_sublist _, fun config e he => ?_⟩
  rw [PROXIES_URLS_CLEANED, List.mem_filterMap] at he
  obtain ⟨p, hp, hf⟩ := he
  by_cases hs : pyStrip p = []
  · rw [if_pos hs] at hf; exact Option.noConfusion hf
  · rw [if_neg hs] at hf
    have he : e = pyStrip p := (Option.some.injEq _ _).mp hf.symm
    subst he
    exact ⟨hs, fun c hc => pyStrip_head hc, fun c hc => pyStrip_getLast hc,
      p, hp, rfl⟩

/-- Witness for C8 on the concrete configuration string `" a ,, b"`. -/
theorem proxy_pool_parsing_witness :
    (['a'] : List Char) ≠ [] ∧
    (∀ c, (['a'] : List Char).head? = some c → pyIsSpace c = false) ∧
    (∀ c, (['a'] : List Char).getLast? = some c → pyIsSpace c = false) ∧
    ∃ p ∈ PROXIES_LIST_RAW (" a ,, b".data), ['a'] = pyStrip p :=
  proxy_pool_parsing.2.2 (" a ,, b".data) ['a'] (by decide)

/-- C9: an absent format parameter defaults to `"srt"`; the MIME type is
`text/plain` for `"txt"` and `application/x-subrip` for `"srt"`; and the
suggested filename is exactly `<videoId>_<lang>.txt` or
`<videoId>_<lang>.srt` respectively. -/
theorem download_default_format_and_metadata :
    (∀ (pool : List String) (cursor : ℕ) (videoId lang : String)
        (transcript : List Cue),
      download_subtitle pool cursor videoId lang none transcript =
        download_subtitle pool cursor videoId lang (some "srt") transcript) ∧
    (∀ (pool : List String) (cursor : ℕ) (videoId lang : String)
        (transcript : List Cue), videoId ≠ "" → lang ≠ "" →
      (download_subtitle pool cursor videoId lang (some "txt")
          transcript).response =
        DlResponse.file (format_txt transcript) "text/plain"
          (videoId ++ "_" ++ lang ++ ".txt")) ∧
    (∀ (pool : List String) (cursor : ℕ) (videoId lang : String)
        (transcript : List Cue), videoId ≠ "" → lang ≠ "" →
      (download_subtitle pool cursor videoId lang (some "srt")
          transcript).response =
        DlResponse.file (format_srt transcript) "application/x-subrip"
          (videoId ++ "_" ++ lang ++ ".srt")) := by
  refine ⟨fun pool cursor videoId lang transcript => rfl,
    fun pool cursor videoId lang transcript hv hl => ?_,
    fun pool cursor videoId lang transcript hv hl => ?_⟩
  · simp [download_subtitle, hv, hl]
  · simp [download_subtitle, hv, hl]

/-- Witness for C9 on a concrete request. -/
theorem download_default_format_and_metadata_witness :
    (download_subtitle ["P"] 0 "vid" "en" (some "txt") []).response =
      DlResponse.file (format_txt []) "text/plain" ("vid" ++ "_" ++ "en" ++ ".txt") :=
  download_default_format_and_metadata.2.1 ["P"] 0 "vid" "en" []
    (by decide) (by decide)

/-- C10 (implicit): with a non-empty pool, a request whose format is neither
`"txt"` nor `"srt"` still advances the round-robin cursor by one and still
reaches the downstream transcript fetch — proxy selection and the fetch
happen before the format is validated, so the selector state is not left
unchanged when the call ends in the unsupported-format error. -/
theorem unsupported_format_still_advances_cursor :
    ∀ (pool : List String) (cursor : ℕ) (videoId lang fmt : String)
      (transcript : List Cue),
      pool ≠ [] → videoId ≠ "" → lang ≠ "" → fmt ≠ "txt" → fmt ≠ "srt" →
      (download_subtitle pool cursor videoId lang (some fmt)
          transcript).cursorAfter = cursor + 1 ∧
      (download_subtitle pool cursor videoId lang (some fmt)
          transcript).fetchAttempted = true ∧
      (download_subtitle pool cursor videoId lang (some fmt)
          transcript).response =
        DlResponse.jsonError
          "Unsupported format. Only 'txt' and 'srt' are supported." 400 := by
  intro pool cursor videoId lang fmt transcript hpool hv hl h1 h2
  have hp : 0 < pool.length := List.length_pos.mpr hpool
  refine ⟨?_, ?_, ?_⟩ <;> simp [download_subtitle, select_next, hv, hl, h1, h2, hp]

/-- Witness for C10 on a concrete request with pool `["A"]` and format
`"xml"`. -/
theorem unsupported_format_still_advances_cursor_witness :
    (download_subtitle ["A"] 0 "v" "en" (some "xml") []).cursorAfter = 0 + 1 ∧
    (download_subtitle ["A"] 0 "v" "en" (some "xml") []).fetchAttempted = true ∧
    (download_subtitle ["A"] 0 "v" "en" (some "xml") []).response =
      DlResponse.jsonError
        "Unsupported format. Only 'txt' and 'srt' are supported." 400 :=
  unsupported_format_still_advances_cursor ["A"] 0 "v" "en" "xml" []
    (by decide) (by decide) (by decide) (by decide) (by decide)
